import Mathlib

/-
Verification of python-bot-utils (facebook.py, telegram.py): a shallow
embedding of the payload builders, the Messenger client and the Telegram
formatting helper, with theorems checking the specification's claims.

Modelling conventions:
* Python dictionaries are insertion-ordered association lists (`Dict`);
  `setKey` is `d[k] = v` and `pyUpdate` is `d.update(kvs)`.
* The HTTP transport (`requests.post`) is an external collaborator: each
  send operation is given the transport's `Response` and returns the list
  of issued `Request`s, the emitted log records and the final state of the
  caller-supplied payload mapping (state threading stands in for Python's
  in-place mutation).
* A Python `raise` is `Except.error`; `PyError.attributeError` embeds
  `AttributeError` (the spec's "ValidationError" taxonomy entry).
* `logger.error('...'.format(a, b))` is embedded as a structured
  `LogRecord.error` carrying the interpolated status code and response
  body (the transport's body is modelled as already-parsed JSON, per the
  spec's externalisation of JSON decoding).
-/

/-- Python values appearing in the JSON-shaped payload dictionaries:
None, strings, integers, booleans, nested dictionaries and lists. -/
inductive Val : Type where
  | none : Val
  | str : String → Val
  | int : Int → Val
  | bool : Bool → Val
  | obj : List (String × Val) → Val
  | arr : List Val → Val

/-- A Python dictionary with string keys, insertion ordered. -/
abbrev Dict := List (String × Val)

/-- Python dictionary assignment `d[k] = v`: replace the value at an existing
key in place, otherwise append the new pair at the end. -/
def setKey : Dict → String → Val → Dict
  | [], k, v => [(k, v)]
  | (k0, v0) :: rest, k, v =>
    if k0 = k then (k, v) :: rest else (k0, v0) :: setKey rest k v

/-- Python `d.update(kvs)`: assign each key of `kvs` in order. -/
def pyUpdate (d : Dict) (kvs : Dict) : Dict :=
  kvs.foldl (fun acc kv => setKey acc kv.1 kv.2) d

/-- Dictionary membership and access: `d[k]` as an `Option`. -/
def dlookup : Dict → String → Option Val
  | [], _ => Option.none
  | (k0, v) :: rest, k => if k0 = k then some v else dlookup rest k

/-- A raised Python exception. `facebook.py` raises only `AttributeError`
(the error the spec's taxonomy calls "ValidationError"). -/
inductive PyError : Type where
  | attributeError (msg : String) : PyError

/-- Button.__init__ (facebook.py lines 7-19): `self.payload = {'type': self.button_type}`,
where `button_type` is the class attribute of the concrete variant. -/
def buttonInit (button_type : Val) : Dict :=
  [("type", button_type)]

/-- UrlButton(title, url, webview_height_ratio='full', messenger_extensions=True).payload
(facebook.py lines 22-45): tag `web_url`, then the four fields. -/
def UrlButton (title url webview_height_ratio : String)
    (messenger_extensions : Bool) : Dict :=
  pyUpdate (buttonInit (Val.str "web_url"))
    [("title", Val.str title), ("url", Val.str url),
     ("webview_height_ratio", Val.str webview_height_ratio),
     ("messenger_extensions", Val.bool messenger_extensions)]

/-- PostbackButton(title, payload).payload (facebook.py lines 48-62):
tag `postback`, then title and payload. -/
def PostbackButton (title payload : String) : Dict :=
  pyUpdate (buttonInit (Val.str "postback"))
    [("title", Val.str title), ("payload", Val.str payload)]

/-- CallButton(title, payload).payload (facebook.py lines 65-78):
tag `phone_number`, then title and payload. -/
def CallButton (title payload : String) : Dict :=
  pyUpdate (buttonInit (Val.str "phone_number"))
    [("title", Val.str title), ("payload", Val.str payload)]

/-- ShareButton().payload (facebook.py lines 81-86): inherits
Button.__init__, so only the tag `element_share`. -/
def ShareButton : Dict :=
  buttonInit (Val.str "element_share")

/-- BuyButton(title, payload, payment_summary).payload (facebook.py lines
89-106): tag `payment`, then title, payload and the payment_summary mapping. -/
def BuyButton (title payload : String) (payment_summary : Val) : Dict :=
  pyUpdate (buttonInit (Val.str "payment"))
    [("title", Val.str title), ("payload", Val.str payload),
     ("payment_summary", payment_summary)]

/-- LogInButton(url).payload (facebook.py lines 109-122):
tag `account_link`, then the url. -/
def LogInButton (url : String) : Dict :=
  pyUpdate (buttonInit (Val.str "account_link"))
    [("url", Val.str url)]

/-- LogOutButton().payload (facebook.py lines 125-130): inherits
Button.__init__, so only the tag `account_unlink`. -/
def LogOutButton : Dict :=
  buttonInit (Val.str "account_unlink")

/-- QuickReply(content_type, title='', payload='', image_url='').payload
(facebook.py lines 133-158). The constructor builds
`{'content_type': content_type}`; when `content_type == 'text'` it raises
`AttributeError('You should specify title and payload.')` if `title` is
falsy while `payload` is truthy (string truthiness: non-empty), otherwise
adds `title` and `payload`; finally, if `image_url` is truthy it adds
`image_url`. The raise aborts construction, so it is written as the guard
of the whole builder (it fires in exactly the same cases as the source);
a skipped conditional update is an update with the empty list, which
leaves the dictionary unchanged. -/
def QuickReply (content_type title payload image_url : String) :
    Except PyError Dict :=
  if content_type = "text" ∧ title = "" ∧ payload ≠ "" then
    Except.error (PyError.attributeError "You should specify title and payload.")
  else
    Except.ok
      (pyUpdate
        (pyUpdate [("content_type", Val.str content_type)]
          (if content_type = "text" then
            [("title", Val.str title), ("payload", Val.str payload)]
           else []))
        (if image_url = "" then [] else [("image_url", Val.str image_url)]))

/-- One POST issued by the client: the full URL and the JSON body. -/
structure Request where
  url : String
  json : Dict

/-- The transport collaborator's response to the single POST: the HTTP
status code and the response body, modelled as already-parsed JSON. -/
structure Response where
  status_code : Nat
  json : Val

/-- One emitted log record. `error status_code body` embeds
`logger.error('Unable to send message. Status code: {}. {}'.format(response.status_code, response.json()))`
(facebook.py lines 181-183): an error-level record carrying the
interpolated status code and response body. -/
inductive LogRecord : Type where
  | error (status_code : Nat) (body : Val) : LogRecord

/-- The observable outcome of one send operation: the issued requests, the
emitted log records, and the final state of the caller-supplied payload
mapping (the source mutates it in place). -/
structure SendResult where
  requests : List Request
  logs : List LogRecord
  payload : Dict

/-- MessengerBot(page_access_token) (facebook.py lines 161-164). -/
structure MessengerBot where
  page_access_token : String

/-- The fixed Messenger Graph API endpoint (facebook.py line 172). -/
def base_url : String := "https://graph.facebook.com/v2.6/me/messages"

/-- MessengerBot.call_send_api(recipient_id, payload) (facebook.py lines
166-183): merges `{'recipient': {'id': recipient_id}}` into the
caller-supplied payload (in place), POSTs once to
`base_url + '?access_token=' + page_access_token` with that mapping as the
JSON body; on status 200 decodes and discards the response body, otherwise
emits one error log record with the status code and body. It never raises
and returns nothing. -/
def MessengerBot.call_send_api (bot : MessengerBot) (resp : Response)
    (recipient_id : Int) (payload : Dict) : Except PyError SendResult :=
  let merged := pyUpdate payload [("recipient", Val.obj [("id", Val.int recipient_id)])]
  Except.ok
    ⟨[⟨base_url ++ "?access_token=" ++ bot.page_access_token, merged⟩],
     if resp.status_code = 200 then [] else [LogRecord.error resp.status_code resp.json],
     merged⟩

/-- MessengerBot.sendMessage(recipient_id, message) (facebook.py lines
185-198): wraps the text as `{'message': {'text': message}}` and calls
call_send_api. -/
def MessengerBot.sendMessage (bot : MessengerBot) (resp : Response)
    (recipient_id : Int) (message : String) : Except PyError SendResult :=
  bot.call_send_api resp recipient_id
    [("message", Val.obj [("text", Val.str message)])]

/-- MessengerBot.sendAttachment(recipient_id, attachment_type, url)
(facebook.py lines 241-261): wraps the url as
`{'message': {'attachment': {'type': attachment_type, 'payload': {'url': url}}}}`. -/
def MessengerBot.sendAttachment (bot : MessengerBot) (resp : Response)
    (recipient_id : Int) (attachment_type url : String) : Except PyError SendResult :=
  bot.call_send_api resp recipient_id
    [("message", Val.obj
      [("attachment", Val.obj
        [("type", Val.str attachment_type),
         ("payload", Val.obj [("url", Val.str url)])])])]

/-- MessengerBot.sendAudio (facebook.py lines 200-208): forwards to
sendAttachment with type 'audio'. -/
def MessengerBot.sendAudio (bot : MessengerBot) (resp : Response)
    (recipient_id : Int) (url : String) : Except PyError SendResult :=
  bot.sendAttachment resp recipient_id "audio" url

/-- MessengerBot.sendFile (facebook.py lines 210-218): forwards to
sendAttachment with type 'file'. -/
def MessengerBot.sendFile (bot : MessengerBot) (resp : Response)
    (recipient_id : Int) (url : String) : Except PyError SendResult :=
  bot.sendAttachment resp recipient_id "file" url

/-- MessengerBot.sendImage (facebook.py lines 220-229): forwards to
sendAttachment with type 'image'. -/
def MessengerBot.sendImage (bot : MessengerBot) (resp : Response)
    (recipient_id : Int) (url : String) : Except PyError SendResult :=
  bot.sendAttachment resp recipient_id "image" url

/-- MessengerBot.sendVideo (facebook.py lines 231-239): forwards to
sendAttachment with type 'video'. -/
def MessengerBot.sendVideo (bot : MessengerBot) (resp : Response)
    (recipient_id : Int) (url : String) : Except PyError SendResult :=
  bot.sendAttachment resp recipient_id "video" url

/-- MessengerBot.sendButton(recipient_id, message, buttons) (facebook.py
lines 263-287): wraps as a button-template attachment. -/
def MessengerBot.sendButton (bot : MessengerBot) (resp : Response)
    (recipient_id : Int) (message : String) (buttons : List Val) : Except PyError SendResult :=
  bot.call_send_api resp recipient_id
    [("message", Val.obj
      [("attachment", Val.obj
        [("type", Val.str "template"),
         ("payload", Val.obj
           [("template_type", Val.str "button"),
            ("text", Val.str message),
            ("buttons", Val.arr buttons)])])])]

/-- MessengerBot.sendQuickReply(recipient_id, message, quick_replies)
(facebook.py lines 289-308): wraps as `{'message': {'text': message,
'quick_replies': quick_replies}}`. -/
def MessengerBot.sendQuickReply (bot : MessengerBot) (resp : Response)
    (recipient_id : Int) (message : String) (quick_replies : List Val) : Except PyError SendResult :=
  bot.call_send_api resp recipient_id
    [("message", Val.obj
      [("text", Val.str message), ("quick_replies", Val.arr quick_replies)])]

/-- MessengerBot.sendSenderAction(recipient_id, sender_action) (facebook.py
lines 310-326): raises `AttributeError('Unknown sender action.')` when
`sender_action` is not one of 'mark_seen', 'typing_on', 'typing_of'
(the source's literal strings), otherwise sends
`{'sender_action': sender_action}`. -/
def MessengerBot.sendSenderAction (bot : MessengerBot) (resp : Response)
    (recipient_id : Int) (sender_action : String) : Except PyError SendResult :=
  if sender_action ∉ ["mark_seen", "typing_on", "typing_of"] then
    Except.error (PyError.attributeError "Unknown sender action.")
  else
    bot.call_send_api resp recipient_id [("sender_action", Val.str sender_action)]

/-- The requests issued by a send operation (none when it raised before
reaching the transport). -/
def sentRequests : Except PyError SendResult → List Request
  | Except.ok r => r.requests
  | Except.error _ => []

/-- One call received by the external Telegram bot collaborator's
`sendMessage(chat_id, text, parse_mode=...)` primitive. -/
structure TelegramCall where
  chat_id : Int
  text : String
  parse_mode : String

/-- send_markdown_message(bot, chat_id, message) (telegram.py lines 4-9):
calls `bot.sendMessage(chat_id, emoji.emojize(message, use_aliases=True),
parse_mode='Markdown')` once. The external collaborators are made
explicit: `emojize` is passed as a function, and the bot is observed as
the list of `sendMessage` calls it receives. -/
def send_markdown_message (emojize : String → String) (chat_id : Int)
    (message : String) : List TelegramCall :=
  [⟨chat_id, emojize message, "Markdown"⟩]

/-- Modelled from the spec: the `emoji` package (an external collaborator,
not part of this repository) expands shorthand aliases in
`emoji.emojize(message, use_aliases=True)`; the spec records the alias
`:smile:` → 😄. Fuel-driven scan over the character list replacing each
occurrence of `:smile:`. -/
def expandSmile : Nat → List Char → List Char
  | 0, cs => cs
  | _ + 1, [] => []
  | fuel + 1, c :: cs =>
    if c = ':' ∧ cs.take 6 = [ 's', 'm', 'i', 'l', 'e', ':' ] then
      '😄' :: expandSmile fuel (cs.drop 6)
    else c :: expandSmile fuel cs

/-- Modelled from the spec: `emoji.emojize(s, use_aliases=True)` restricted
to the alias the spec documents. -/
def emojizeSpec (s : String) : String :=
  ⟨expandSmile s.data.length s.data⟩

/-! Helper lemmas about the dictionary operations. -/

theorem dlookup_setKey_self (d : Dict) (k : String) (v : Val) :
    dlookup (setKey d k v) k = some v := by
  induction d with
  | nil => simp [setKey, dlookup]
  | cons kv rest ih =>
    obtain ⟨k0, v0⟩ := kv
    by_cases h : k0 = k
    · subst h
      simp [setKey, dlookup]
    · simp [setKey, dlookup, h, ih]

theorem dlookup_setKey_ne (d : Dict) (k k' : String) (v : Val) (h : k' ≠ k) :
    dlookup (setKey d k v) k' = dlookup d k' := by
  induction d with
  | nil => simp [setKey, dlookup, Ne.symm h]
  | cons kv rest ih =>
    obtain ⟨k0, v0⟩ := kv
    by_cases h0 : k0 = k
    · subst h0
      simp [setKey, dlookup, Ne.symm h]
    · simp [setKey, dlookup, h0, ih]

theorem call_send_api_non200 (bot : MessengerBot) (resp : Response)
    (recipient_id : Int) (payload : Dict) (h : resp.status_code ≠ 200) :
    bot.call_send_api resp recipient_id payload =
      Except.ok
        ⟨[⟨base_url ++ "?access_token=" ++ bot.page_access_token,
           pyUpdate payload [("recipient", Val.obj [("id", Val.int recipient_id)])]⟩],
         [LogRecord.error resp.status_code resp.json],
         pyUpdate payload [("recipient", Val.obj [("id", Val.int recipient_id)])]⟩ := by
  simp [MessengerBot.call_send_api, h]

theorem sendSenderAction_eq_of_mem (bot : MessengerBot) (resp : Response)
    (recipient_id : Int) (sender_action : String)
    (h : sender_action ∈ ["mark_seen", "typing_on", "typing_of"]) :
    bot.sendSenderAction resp recipient_id sender_action =
      bot.call_send_api resp recipient_id [("sender_action", Val.str sender_action)] := by
  unfold MessengerBot.sendSenderAction
  rw [if_neg (not_not_intro h)]

/-! The claims. -/

/-- C1: for every access token, transport response, recipient id and
message, `sendMessage(recipient_id, message)` issues exactly one POST, to
the Messenger endpoint with the access token as query parameter, whose
JSON body is `{message: {text: message}, recipient: {id: recipient_id}}`. -/
theorem c1_sendMessage_single_post (bot : MessengerBot) (resp : Response)
    (recipient_id : Int) (message : String) :
    sentRequests (bot.sendMessage resp recipient_id message) =
      [⟨base_url ++ "?access_token=" ++ bot.page_access_token,
        [("message", Val.obj [("text", Val.str message)]),
         ("recipient", Val.obj [("id", Val.int recipient_id)])]⟩] ∧
    (sentRequests (bot.sendMessage resp recipient_id message)).length = 1 :=
  ⟨rfl, rfl⟩

/-- C2: on a non-200 transport response, every send operation raises no
exception and returns normally, and emits exactly one error log record
carrying the status code and response body. -/
theorem c2_non200_silent_one_error_log (bot : MessengerBot) (resp : Response)
    (recipient_id : Int) (h : resp.status_code ≠ 200) :
    (∀ payload : Dict, ∃ r : SendResult,
        bot.call_send_api resp recipient_id payload = Except.ok r ∧
        r.logs = [LogRecord.error resp.status_code resp.json]) ∧
    (∀ message, ∃ r : SendResult,
        bot.sendMessage resp recipient_id message = Except.ok r ∧
        r.logs = [LogRecord.error resp.status_code resp.json]) ∧
    (∀ attachment_type url, ∃ r : SendResult,
        bot.sendAttachment resp recipient_id attachment_type url = Except.ok r ∧
        r.logs = [LogRecord.error resp.status_code resp.json]) ∧
    (∀ message buttons, ∃ r : SendResult,
        bot.sendButton resp recipient_id message buttons = Except.ok r ∧
        r.logs = [LogRecord.error resp.status_code resp.json]) ∧
    (∀ message quick_replies, ∃ r : SendResult,
        bot.sendQuickReply resp recipient_id message quick_replies = Except.ok r ∧
        r.logs = [LogRecord.error resp.status_code resp.json]) ∧
    (∃ r : SendResult,
        bot.sendSenderAction resp recipient_id "typing_on" = Except.ok r ∧
        r.logs = [LogRecord.error resp.status_code resp.json]) :=
  ⟨fun payload => ⟨_, call_send_api_non200 bot resp recipient_id payload h, rfl⟩,
   fun message => ⟨_, call_send_api_non200 bot resp recipient_id _ h, rfl⟩,
   fun attachment_type url => ⟨_, call_send_api_non200 bot resp recipient_id _ h, rfl⟩,
   fun message buttons => ⟨_, call_send_api_non200 bot resp recipient_id _ h, rfl⟩,
   fun message quick_replies => ⟨_, call_send_api_non200 bot resp recipient_id _ h, rfl⟩,
   ⟨_, (sendSenderAction_eq_of_mem bot resp recipient_id "typing_on" (by decide)).trans
         (call_send_api_non200 bot resp recipient_id _ h), rfl⟩⟩

/-- C2 witness: a concrete non-200 response yields a normal return and one
error log record with the status code and body. -/
theorem c2_witness : ∃ r : SendResult,
    MessengerBot.call_send_api ⟨"tok"⟩ ⟨500, Val.obj []⟩ 7 [] = Except.ok r ∧
    r.logs = [LogRecord.error 500 (Val.obj [])] :=
  (c2_non200_silent_one_error_log ⟨"tok"⟩ ⟨500, Val.obj []⟩ 7 (by decide)).1 []

/-- C3 counterexample: the raised error's message is the source's literal
`Unknown sender action.` (with a trailing period), not
`Unknown sender action` as the claim states. -/
theorem c3_counterexample :
    MessengerBot.sendSenderAction ⟨"tok"⟩ ⟨200, Val.obj []⟩ 123 "bogus" =
      Except.error (PyError.attributeError "Unknown sender action.") ∧
    "Unknown sender action." ≠ "Unknown sender action" :=
  ⟨rfl, by decide⟩

/-- C3 (amended): `sendSenderAction(recipient_id, sender_action)` performs
the network call exactly when `sender_action` is one of `mark_seen`,
`typing_on`, `typing_of` (issuing one POST whose body is
`{sender_action: ..., recipient: {id: ...}}`); for every other string it
raises `AttributeError` with message `Unknown sender action.` and issues
no network call. -/
theorem c3_sendSenderAction_amended (bot : MessengerBot) (resp : Response)
    (recipient_id : Int) :
    (∀ sender_action,
       sender_action ∈ ["mark_seen", "typing_on", "typing_of"] →
       ∃ r : SendResult,
         bot.sendSenderAction resp recipient_id sender_action = Except.ok r ∧
         r.requests = [⟨base_url ++ "?access_token=" ++ bot.page_access_token,
           [("sender_action", Val.str sender_action),
            ("recipient", Val.obj [("id", Val.int recipient_id)])]⟩] ∧
         r.requests.length = 1) ∧
    (∀ sender_action,
       sender_action ∉ ["mark_seen", "typing_on", "typing_of"] →
       bot.sendSenderAction resp recipient_id sender_action =
         Except.error (PyError.attributeError "Unknown sender action.")) := by
  constructor
  · intro sender_action hmem
    exact ⟨_, sendSenderAction_eq_of_mem bot resp recipient_id sender_action hmem, rfl, rfl⟩
  · intro sender_action hmem
    unfold MessengerBot.sendSenderAction
    rw [if_pos hmem]

/-- C3 witness: `typing_on` issues the POST; `bogus` raises and issues no
network call. -/
theorem c3_witness :
    (∃ r : SendResult,
       MessengerBot.sendSenderAction ⟨"tok"⟩ ⟨200, Val.obj []⟩ 123 "typing_on" = Except.ok r ∧
       r.requests = [⟨base_url ++ "?access_token=" ++ "tok",
         [("sender_action", Val.str "typing_on"),
          ("recipient", Val.obj [("id", Val.int 123)])]⟩] ∧
       r.requests.length = 1) ∧
    MessengerBot.sendSenderAction ⟨"tok"⟩ ⟨200, Val.obj []⟩ 123 "bogus" =
      Except.error (PyError.attributeError "Unknown sender action.") :=
  ⟨(c3_sendSenderAction_amended ⟨"tok"⟩ ⟨200, Val.obj []⟩ 123).1 "typing_on" (by decide),
   (c3_sendSenderAction_amended ⟨"tok"⟩ ⟨200, Val.obj []⟩ 123).2 "bogus" (by decide)⟩

/-- C4 counterexample: `QuickReply("text", payload="x")` does fail, but the
error's message is the source's literal `You should specify title and
payload.` (with a trailing period), not `You should specify title and
payload` as the claim states. -/
theorem c4_counterexample :
    QuickReply "text" "" "x" "" =
      Except.error (PyError.attributeError "You should specify title and payload.") ∧
    "You should specify title and payload." ≠ "You should specify title and payload" :=
  ⟨rfl, by decide⟩

/-- C4 (amended): constructing QuickReply with content_type `text`, a
non-empty payload and an empty title raises `AttributeError` with message
`You should specify title and payload.`; the check is asymmetric: a
non-empty title with any payload (in particular an empty one) does not
fail, and neither does an empty title with an empty payload. -/
theorem c4_quickreply_missing_title_amended :
    (∀ payload image_url : String, payload ≠ "" →
       QuickReply "text" "" payload image_url =
         Except.error (PyError.attributeError "You should specify title and payload.")) ∧
    (∀ title payload image_url : String, title ≠ "" →
       ∃ d : Dict, QuickReply "text" title payload image_url = Except.ok d) ∧
    (∀ image_url : String,
       ∃ d : Dict, QuickReply "text" "" "" image_url = Except.ok d) := by
  refine ⟨?_, ?_, ?_⟩
  · intro payload image_url hp
    unfold QuickReply
    rw [if_pos ⟨rfl, rfl, hp⟩]
  · intro title payload image_url ht
    unfold QuickReply
    rw [if_neg (fun hc => ht hc.2.1)]
    exact ⟨_, rfl⟩
  · intro image_url
    unfold QuickReply
    rw [if_neg (fun hc => hc.2.2 rfl)]
    exact ⟨_, rfl⟩

/-- C4 witness: the amended claim at concrete inputs — missing title with
payload `x` raises; title `Hi` with empty payload succeeds; both empty
succeed. -/
theorem c4_witness :
    QuickReply "text" "" "x" "" =
      Except.error (PyError.attributeError "You should specify title and payload.") ∧
    (∃ d : Dict, QuickReply "text" "Hi" "" "" = Except.ok d) ∧
    (∃ d : Dict, QuickReply "text" "" "" "" = Except.ok d) :=
  ⟨c4_quickreply_missing_title_amended.1 "x" "" (by decide),
   c4_quickreply_missing_title_amended.2.1 "Hi" "" "" (by decide),
   c4_quickreply_missing_title_amended.2.2 ""⟩

/-- C5: whenever QuickReply construction succeeds, the payload has the
reference shape: it contains `content_type`; with content_type `text` it
contains the given title and payload; with content_type `location` no
title/payload keys are attached; `image_url` is attached iff non-empty,
regardless of content_type; and the key list is exactly the one the shape
prescribes. -/
theorem c5_quickreply_shape (content_type title payload image_url : String)
    (d : Dict) (h : QuickReply content_type title payload image_url = Except.ok d) :
    dlookup d "content_type" = some (Val.str content_type) ∧
    (content_type = "text" →
       dlookup d "title" = some (Val.str title) ∧
       dlookup d "payload" = some (Val.str payload)) ∧
    (content_type = "location" →
       dlookup d "title" = Option.none ∧ dlookup d "payload" = Option.none) ∧
    dlookup d "image_url" =
      (if image_url = "" then Option.none else some (Val.str image_url)) ∧
    d.map Prod.fst =
      "content_type" ::
        ((if content_type = "text" then ["title", "payload"] else []) ++
         (if image_url = "" then [] else ["image_url"])) := by
  unfold QuickReply at h
  by_cases hg : content_type = "text" ∧ title = "" ∧ payload ≠ ""
  · rw [if_pos hg] at h
    exact absurd h (by simp)
  · rw [if_neg hg] at h
    replace h := (Except.ok.inj h).symm
    subst h
    by_cases hc : content_type = "text"
    · subst hc
      by_cases hi : image_url = ""
      · subst hi
        exact ⟨rfl, fun _ => ⟨rfl, rfl⟩, fun hl => absurd hl (by decide), rfl, rfl⟩
      · simp only [if_neg hi]
        exact ⟨rfl, fun _ => ⟨rfl, rfl⟩, fun hl => absurd hl (by decide), rfl, rfl⟩
    · simp only [if_neg hc]
      by_cases hi : image_url = ""
      · subst hi
        exact ⟨rfl, fun hcc => absurd hcc hc, fun _ => ⟨rfl, rfl⟩, rfl, rfl⟩
      · simp only [if_neg hi]
        exact ⟨rfl, fun hcc => absurd hcc hc, fun _ => ⟨rfl, rfl⟩, rfl, rfl⟩

/-- C5 witness: `QuickReply("text", title="Hi")` succeeds with payload
`{content_type: "text", title: "Hi", payload: ""}`, and the shape theorem
applies to it. -/
theorem c5_witness :
    dlookup [("content_type", Val.str "text"), ("title", Val.str "Hi"),
      ("payload", Val.str "")] "title" = some (Val.str "Hi") :=
  ((c5_quickreply_shape "text" "Hi" "" ""
      [("content_type", Val.str "text"), ("title", Val.str "Hi"),
       ("payload", Val.str "")] rfl).2.1 rfl).1

/-- C6: every Button variant's payload carries `type` equal to its fixed
tag and every required field of the variant verbatim (the builders are
pure functions, so the payload is fixed once construction returns). -/
theorem c6_button_payloads :
    (∀ (title url webview_height_ratio : String) (messenger_extensions : Bool),
       dlookup (UrlButton title url webview_height_ratio messenger_extensions) "type" =
         some (Val.str "web_url") ∧
       dlookup (UrlButton title url webview_height_ratio messenger_extensions) "title" =
         some (Val.str title) ∧
       dlookup (UrlButton title url webview_height_ratio messenger_extensions) "url" =
         some (Val.str url) ∧
       dlookup (UrlButton title url webview_height_ratio messenger_extensions)
         "webview_height_ratio" = some (Val.str webview_height_ratio) ∧
       dlookup (UrlButton title url webview_height_ratio messenger_extensions)
         "messenger_extensions" = some (Val.bool messenger_extensions)) ∧
    (∀ title payload : String,
       dlookup (PostbackButton title payload) "type" = some (Val.str "postback") ∧
       dlookup (PostbackButton title payload) "title" = some (Val.str title) ∧
       dlookup (PostbackButton title payload) "payload" = some (Val.str payload)) ∧
    (∀ title payload : String,
       dlookup (CallButton title payload) "type" = some (Val.str "phone_number") ∧
       dlookup (CallButton title payload) "title" = some (Val.str title) ∧
       dlookup (CallButton title payload) "payload" = some (Val.str payload)) ∧
    dlookup ShareButton "type" = some (Val.str "element_share") ∧
    (∀ (title payload : String) (payment_summary : Val),
       dlookup (BuyButton title payload payment_summary) "type" = some (Val.str "payment") ∧
       dlookup (BuyButton title payload payment_summary) "title" = some (Val.str title) ∧
       dlookup (BuyButton title payload payment_summary) "payload" = some (Val.str payload) ∧
       dlookup (BuyButton title payload payment_summary) "payment_summary" =
         some payment_summary) ∧
    (∀ url : String,
       dlookup (LogInButton url) "type" = some (Val.str "account_link") ∧
       dlookup (LogInButton url) "url" = some (Val.str url)) ∧
    dlookup LogOutButton "type" = some (Val.str "account_unlink") :=
  ⟨fun _ _ _ _ => ⟨rfl, rfl, rfl, rfl, rfl⟩,
   fun _ _ => ⟨rfl, rfl, rfl⟩,
   fun _ _ => ⟨rfl, rfl, rfl⟩,
   rfl,
   fun _ _ _ => ⟨rfl, rfl, rfl, rfl⟩,
   fun _ => ⟨rfl, rfl⟩,
   rfl⟩

/-- C7: call_send_api merges `{recipient: {id: recipient_id}}` into the
caller-supplied payload mapping — the caller-visible mapping after the
call is the original with the recipient entry set, every other key is
unchanged, and the POSTed JSON body is that very mapping (the source
mutates the passed-in dictionary and posts it; the embedding threads the
mutated state explicitly). -/
theorem c7_call_send_api_mutates_payload (bot : MessengerBot) (resp : Response)
    (recipient_id : Int) (payload : Dict) :
    ∃ r : SendResult,
      bot.call_send_api resp recipient_id payload = Except.ok r ∧
      r.payload = pyUpdate payload [("recipient", Val.obj [("id", Val.int recipient_id)])] ∧
      dlookup r.payload "recipient" = some (Val.obj [("id", Val.int recipient_id)]) ∧
      (∀ k : String, k ≠ "recipient" → dlookup r.payload k = dlookup payload k) ∧
      r.requests = [⟨base_url ++ "?access_token=" ++ bot.page_access_token, r.payload⟩] := by
  refine ⟨_, rfl, rfl, ?_, ?_, rfl⟩
  · show dlookup (setKey payload "recipient" (Val.obj [("id", Val.int recipient_id)]))
      "recipient" = _
    exact dlookup_setKey_self payload _ _
  · intro k hk
    show dlookup (setKey payload "recipient" (Val.obj [("id", Val.int recipient_id)])) k = _
    exact dlookup_setKey_ne payload _ k _ hk

/-- C7 witness: on a concrete payload the `message` key survives the merge
unchanged. -/
theorem c7_witness :
    ∃ r : SendResult,
      MessengerBot.call_send_api ⟨"tok"⟩ ⟨200, Val.obj []⟩ 7
        [("message", Val.str "hi")] = Except.ok r ∧
      dlookup r.payload "message" = dlookup [("message", Val.str "hi")] "message" := by
  obtain ⟨r, h1, _, _, h4, _⟩ :=
    c7_call_send_api_mutates_payload ⟨"tok"⟩ ⟨200, Val.obj []⟩ 7 [("message", Val.str "hi")]
  exact ⟨r, h1, h4 "message" (by decide)⟩

/-- C8: sendAudio, sendFile, sendImage and sendVideo are observably equal
to sendAttachment with the attachment type fixed to `audio`, `file`,
`image`, `video` respectively, for every bot, transport response,
recipient id and url. -/
theorem c8_media_forwarders (bot : MessengerBot) (resp : Response)
    (recipient_id : Int) (url : String) :
    bot.sendAudio resp recipient_id url = bot.sendAttachment resp recipient_id "audio" url ∧
    bot.sendFile resp recipient_id url = bot.sendAttachment resp recipient_id "file" url ∧
    bot.sendImage resp recipient_id url = bot.sendAttachment resp recipient_id "image" url ∧
    bot.sendVideo resp recipient_id url = bot.sendAttachment resp recipient_id "video" url :=
  ⟨rfl, rfl, rfl, rfl⟩

/-- C9: send_markdown_message calls the bot's sendMessage exactly once,
with the chat id, the alias-expanded message and parse_mode `Markdown`;
with the spec's alias table, `hello :smile:` is forwarded as `hello 😄`. -/
theorem c9_send_markdown_message_forwards_once :
    (∀ (emojize : String → String) (chat_id : Int) (message : String),
       send_markdown_message emojize chat_id message =
         [⟨chat_id, emojize message, "Markdown"⟩] ∧
       (send_markdown_message emojize chat_id message).length = 1) ∧
    send_markdown_message emojizeSpec 42 "hello :smile:" =
      [⟨42, "hello 😄", "Markdown"⟩] :=
  ⟨fun _ _ _ => ⟨rfl, rfl⟩, rfl⟩

/-- C10: QuickReply does not validate content_type: for every string
outside text/location, construction succeeds and yields
`{content_type: c}` with no title/payload keys, plus `image_url` exactly
when it is non-empty. -/
theorem c10_quickreply_no_content_type_validation
    (content_type title payload image_url : String)
    (h1 : content_type ≠ "text") (h2 : content_type ≠ "location") :
    ∃ d : Dict,
      QuickReply content_type title payload image_url = Except.ok d ∧
      dlookup d "content_type" = some (Val.str content_type) ∧
      dlookup d "title" = Option.none ∧
      dlookup d "payload" = Option.none ∧
      dlookup d "image_url" =
        (if image_url = "" then Option.none else some (Val.str image_url)) ∧
      d.map Prod.fst = "content_type" :: (if image_url = "" then [] else ["image_url"]) := by
  unfold QuickReply
  simp only [if_neg (fun hc => h1 hc.1 : ¬(content_type = "text" ∧ title = "" ∧ payload ≠ "")),
    if_neg h1]
  by_cases hi : image_url = ""
  · subst hi
    exact ⟨_, rfl, rfl, rfl, rfl, rfl, rfl⟩
  · simp only [if_neg hi]
    exact ⟨_, rfl, rfl, rfl, rfl, rfl, rfl⟩

/-- C10 witness: `QuickReply("bogus", "t", "p")` succeeds with payload
`{content_type: "bogus"}`. -/
theorem c10_witness :
    ∃ d : Dict,
      QuickReply "bogus" "t" "p" "" = Except.ok d ∧
      dlookup d "content_type" = some (Val.str "bogus") ∧
      dlookup d "title" = Option.none ∧
      dlookup d "payload" = Option.none ∧
      dlookup d "image_url" = (if "" = "" then Option.none else some (Val.str "")) ∧
      d.map Prod.fst = "content_type" :: (if "" = "" then [] else ["image_url"]) :=
  c10_quickreply_no_content_type_validation "bogus" "t" "p" "" (by decide) (by decide)
